import Mathlib

/-!
Verification development for the `libfdu` caller harness and the
C-ABI string-returning native library it exercises.

The repository under verification contains the Python caller harness
(`src/callers/python/main.py`, `src/callers/python/utils.py`); the native
library itself (`add`, `hello_world`, `free_string`) is not part of the
sources, so its operations are modelled from the specification
(Allocator Boundary, Exported Function Surface, Release Function).

The native heap is embedded as an association list from addresses
(natural numbers, never 0) to byte blocks; allocation prepends a fresh
block, release erases the block at the given address.
-/

namespace Libfdu

/-- The modelled native heap: a finite set of live blocks, each a pair of
an address and the bytes stored there. -/
abbrev Heap : Type := List (Nat × List Nat)

/-- The largest address currently live in the heap (0 when empty). -/
def maxAddr (h : Heap) : Nat := (h.map Prod.fst).foldr max 0

/-- A fresh address for the next allocation: strictly above every live
address, and in particular never the null address 0. -/
def freshAddr (h : Heap) : Nat := maxAddr h + 1

/-- The bytes stored at address `a`, if a block is live there. -/
def lookupBlock (a : Nat) (h : Heap) : Option (List Nat) :=
  List.lookup a h

/-- Modelled from the spec: `allocate_owned_string(content) ->
OwnedStringHandle` of the Allocator Boundary — copies `content`, appends
a null terminator, and returns the address of the first byte together
with the heap extended by the new block. -/
def allocate_owned_string (content : List Nat) (h : Heap) : Nat × Heap :=
  (freshAddr h, (freshAddr h, content ++ [0]) :: h)

/-- Modelled from the spec: `release_owned_string(handle) -> void` of the
Allocator Boundary — returns the block at `handle` to the allocator by
erasing it from the heap. -/
def release_owned_string (a : Nat) (h : Heap) : Heap :=
  h.eraseP (fun b => b.1 == a)

/-- Modelled from the spec: the exported `free_string(pointer) -> void`,
which releases a buffer previously handed out by a string-returning
export; all release traffic funnels through the Allocator Boundary. -/
def free_string (a : Nat) (h : Heap) : Heap :=
  release_owned_string a h

/-- The UTF-8 (here: ASCII) bytes of the literal string "hello world". -/
def helloWorldBytes : List Nat :=
  [104, 101, 108, 108, 111, 32, 119, 111, 114, 108, 100]

/-- Modelled from the spec: the exported `hello_world() -> pointer` —
allocates a fresh null-terminated buffer containing the fixed greeting
via the Allocator Boundary and returns its handle. -/
def hello_world (h : Heap) : Nat × Heap :=
  allocate_owned_string helloWorldBytes h

/-- Modelled from the spec: the exported `add(int32, int32) -> int32` —
returns the sum of its arguments, reduced to the 32-bit two's-complement
representative forced by the declared `int32` return type. -/
def add (a b : Int) : Int :=
  (a + b + 2 ^ 31) % 2 ^ 32 - 2 ^ 31

/-- Smallest value representable in an int32. -/
def int32Min : Int := -(2 ^ 31)

/-- Largest value representable in an int32. -/
def int32Max : Int := 2 ^ 31 - 1

/-- `ctypes.cast(ptr, c_char_p).value`: the bytes stored behind the
pointer up to (excluding) the first null byte. -/
def c_char_p_value (bytes : List Nat) : List Nat :=
  bytes.takeWhile (fun b => b ≠ 0)

/-- `.decode()` on ASCII bytes: each byte becomes the character with that
code point. -/
def asciiDecode (bs : List Nat) : String :=
  String.mk (bs.map Char.ofNat)

/-- Observable events of a harness execution: a call to `hello_world`
returning a handle, a read (dereference/copy) of the bytes behind a
handle, and a call to `free_string` on a handle. -/
inductive Event where
  | helloCall (a : Nat)
  | deref (a : Nat)
  | freeCall (a : Nat)
deriving DecidableEq, Repr

/-- `ctypes.cast(ptr, c_char_p).value.decode()` as run in the `try`
block of `TestMain.test_hello_world`: reads the bytes up to the null
terminator, then UTF-8-decodes them; `decodeFails` models the case
where `.decode()` raises (the read of the buffer has already happened
when it does). -/
def tryDecode (decodeFails : Bool) (bytes : List Nat) : Option String :=
  if decodeFails then none else some (asciiDecode (c_char_p_value bytes))

/-- One execution of `TestMain.test_hello_world` from
`src/callers/python/main.py`:
`ptr = DLL.hello_world()`; `try:` decode the bytes behind `ptr`;
`finally:` `DLL.free_string(ptr)`. Returns the event trace, the final
heap, and the decoded result (`none` when `.decode()` raised and the
exception propagates after the `finally` clause). -/
def test_hello_world_run (decodeFails : Bool) (h : Heap) :
    List Event × Heap × Option String :=
  let p := hello_world h
  let raw := (lookupBlock p.1 p.2).getD []
  let res := tryDecode decodeFails raw
  let h2 := free_string p.1 p.2
  ([Event.helloCall p.1, Event.deref p.1, Event.freeCall p.1], h2, res)

/-- Heap effect of one loop iteration of `TestMain.test_memory_leak`,
which calls `self.test_hello_world()`. -/
def hello_free_cycle (h : Heap) : Heap :=
  (test_hello_world_run false h).2.1

/-- Modelled memory usage of the process attributable to the library:
the total number of bytes held in live heap blocks (the model of
`utils.get_memory_usage`, which reads the process resident set size). -/
def memory_usage (h : Heap) : Nat :=
  (h.map (fun b => b.2.length)).sum

/-- The `usage` computed by `TestMain.test_memory_leak`:
`start = get_memory_usage()`; 10 ** 4 iterations of
`self.test_hello_world()`; `end = get_memory_usage()`;
`usage = abs(end - start)`. -/
def test_memory_leak_usage (h : Heap) : Nat :=
  let start := memory_usage h
  let e := memory_usage (hello_free_cycle^[10 ^ 4] h)
  ((e : Int) - (start : Int)).natAbs

/-- The pass condition of `TestMain.test_memory_leak`:
`self.assertLess(usage, 10 ** 4)` applied to `usage = abs(end - start)`
for arbitrary start and end memory samples. -/
def test_memory_leak_passes (start e : Nat) : Bool :=
  if ((e : Int) - (start : Int)).natAbs < 10 ^ 4 then true else false

/-- Scans a trace and reports whether any handle is read after having
been released (and not re-issued in between): a `deref` of an address in
the released set is a use after free; a `freeCall` adds the address to
the released set; a `helloCall` re-issues its (fresh) address. -/
def readAfterFree (freed : List Nat) : List Event → Bool
  | [] => false
  | Event.deref a :: rest => freed.contains a || readAfterFree freed rest
  | Event.freeCall a :: rest => readAfterFree (a :: freed) rest
  | Event.helloCall a :: rest => readAfterFree (freed.erase a) rest

/-! ## Helper lemmas -/

/-- Releasing the block just produced by the Allocator Boundary restores
the heap that held before the allocation. -/
theorem release_alloc (content : List Nat) (h : Heap) :
    release_owned_string (allocate_owned_string content h).1
      (allocate_owned_string content h).2 = h := by
  simp [release_owned_string, allocate_owned_string, List.eraseP_cons]

/-- The fresh address of an extended heap is strictly above the address
of the block at its head. -/
theorem freshAddr_cons_gt (a : Nat) (bs : List Nat) (h : Heap) :
    a < freshAddr ((a, bs) :: h) := by
  simp [freshAddr, maxAddr]
  exact Nat.lt_succ_of_le (le_max_left _ _)

/-- When the mathematical sum of the operands fits in an int32, the
two's-complement reduction in `add` is the identity. -/
theorem add_eq_of_range (a b : Int) (h1 : int32Min ≤ a + b)
    (h2 : a + b ≤ int32Max) : add a b = a + b := by
  unfold add
  simp only [int32Min, int32Max] at h1 h2
  have h0 : (0 : Int) ≤ a + b + 2 ^ 31 := by norm_num at h1 ⊢; linarith
  have hlt : a + b + 2 ^ 31 < 2 ^ 32 := by norm_num at h2 ⊢; linarith
  rw [Int.emod_eq_of_lt h0 hlt]
  ring

/-- The handle just returned by the Allocator Boundary dereferences to
the stored content followed by the null terminator. -/
theorem lookup_alloc_self (content : List Nat) (h : Heap) :
    lookupBlock (allocate_owned_string content h).1
      (allocate_owned_string content h).2 = some (content ++ [0]) := by
  simp [lookupBlock, allocate_owned_string, List.lookup]

/-- An allocation leaves every other address's block unchanged. -/
theorem lookup_alloc_other (content : List Nat) (h : Heap) (a : Nat)
    (hne : a ≠ freshAddr h) :
    lookupBlock a (allocate_owned_string content h).2 = lookupBlock a h := by
  have hb : (a == freshAddr h) = false := beq_eq_false_iff_ne.mpr hne
  simp [lookupBlock, allocate_owned_string, List.lookup, hb]

/-- One iteration of the leak-test loop (`hello_world`, read, decode,
`free_string`) leaves the heap exactly as it was. -/
theorem cycle_id (h : Heap) : hello_free_cycle h = h := by
  unfold hello_free_cycle test_hello_world_run
  exact release_alloc helloWorldBytes h

/-! ## Claim theorems -/

/-- C1 (counterexample): the claim as stated fails — 2147483647 and 1
are both within the int32 range, yet `add 2147483647 1` is not
2147483648, since that sum is not representable in the declared int32
return type. -/
theorem add_int32_range_refuted :
    (int32Min ≤ (2147483647 : Int) ∧ (2147483647 : Int) ≤ int32Max
      ∧ int32Min ≤ (1 : Int) ∧ (1 : Int) ≤ int32Max)
    ∧ add 2147483647 1 ≠ 2147483647 + 1 := by decide

/-- C1 (amended): for all integers a and b within the int32 range whose
sum is also within the int32 range, `add a b` returns a + b; in
particular the harness call `add 1 2` returns 3. -/
theorem add_correct_int32 (a b : Int)
    (ha1 : int32Min ≤ a) (ha2 : a ≤ int32Max)
    (hb1 : int32Min ≤ b) (hb2 : b ≤ int32Max)
    (hs1 : int32Min ≤ a + b) (hs2 : a + b ≤ int32Max) :
    add a b = a + b ∧ add 1 2 = 3 :=
  ⟨add_eq_of_range a b hs1 hs2, by decide⟩

/-- C1 (witness): the amended theorem applied at the harness input
a = 1, b = 2, every hypothesis discharged there. -/
theorem add_correct_int32_witness :
    (int32Min ≤ (1 : Int) ∧ (1 : Int) ≤ int32Max
      ∧ int32Min ≤ (2 : Int) ∧ (2 : Int) ≤ int32Max)
    ∧ add 1 2 = 1 + 2 :=
  ⟨by decide,
    (add_correct_int32 1 2 (by decide) (by decide) (by decide) (by decide)
      (by decide) (by decide)).1⟩

/-- C2: on every heap, the handle returned by `hello_world`
dereferences to a buffer that is null-terminated, contains no interior
null byte, and whose bytes up to the terminator decode to exactly the
literal string "hello world". -/
theorem hello_world_decodes (h : Heap) :
    lookupBlock (hello_world h).1 (hello_world h).2
        = some (helloWorldBytes ++ [0])
    ∧ (helloWorldBytes ++ [0]).getLast? = some 0
    ∧ (∀ byte ∈ helloWorldBytes, byte ≠ 0)
    ∧ asciiDecode (c_char_p_value (helloWorldBytes ++ [0])) = "hello world" :=
  ⟨lookup_alloc_self _ _, by decide, by decide, by decide⟩

/-- C3: 10,000 iterations of `hello_world` followed by `free_string`
(the body of `TestMain.test_memory_leak`) leave the modelled memory
usage exactly where it started: the usage delta is 0, well under 10,000
bytes, with no growth proportional to the iteration count. -/
theorem test_memory_leak_steady_state (h : Heap) :
    hello_free_cycle^[10 ^ 4] h = h
    ∧ test_memory_leak_usage h = 0
    ∧ test_memory_leak_passes (memory_usage h)
        (memory_usage (hello_free_cycle^[10 ^ 4] h)) = true := by
  have hit : hello_free_cycle^[10 ^ 4] h = h := Function.iterate_fixed (cycle_id h) _
  refine ⟨hit, ?_, ?_⟩
  · unfold test_memory_leak_usage
    rw [hit]
    simp
  · rw [hit]
    simp [test_memory_leak_passes]

/-- C4: in every execution of `TestMain.test_hello_world` — whether the
decode in the `try` block succeeds or raises — the trace contains
exactly one `free_string` call on the handle returned by `hello_world`
(the `finally` clause runs on both exit paths). -/
theorem free_called_exactly_once (decodeFails : Bool) (h : Heap) :
    ((test_hello_world_run decodeFails h).1).count
      (Event.freeCall (hello_world h).1) = 1 := by
  simp [test_hello_world_run, List.count_cons]

/-- C5: in every execution of `TestMain.test_hello_world`, the trace is
exactly acquire, then read (copy of the bytes), then release of the
same handle — the read is strictly before the `free_string` call, and
no event dereferences the handle after its release. -/
theorem no_read_after_release (decodeFails : Bool) (h : Heap) :
    (test_hello_world_run decodeFails h).1 =
      [Event.helloCall (hello_world h).1, Event.deref (hello_world h).1,
       Event.freeCall (hello_world h).1]
    ∧ readAfterFree [] (test_hello_world_run decodeFails h).1 = false :=
  ⟨rfl, rfl⟩

/-- C6: two successive `hello_world` calls return distinct addresses —
each call allocates a fresh block, never sharing a buffer — while both
handles dereference to the same "hello world" content. -/
theorem hello_world_fresh_allocation (h : Heap) :
    (hello_world h).1 ≠ (hello_world (hello_world h).2).1
    ∧ lookupBlock (hello_world h).1 (hello_world (hello_world h).2).2
        = some (helloWorldBytes ++ [0])
    ∧ lookupBlock (hello_world (hello_world h).2).1
        (hello_world (hello_world h).2).2 = some (helloWorldBytes ++ [0]) := by
  have hne : (hello_world h).1 ≠ (hello_world (hello_world h).2).1 := by
    show freshAddr h ≠ freshAddr ((freshAddr h, helloWorldBytes ++ [0]) :: h)
    exact Nat.ne_of_lt (freshAddr_cons_gt _ _ _)
  refine ⟨hne, ?_, lookup_alloc_self _ _⟩
  rw [show hello_world (hello_world h).2
        = allocate_owned_string helloWorldBytes (hello_world h).2 from rfl]
  rw [lookup_alloc_other _ _ _ hne]
  exact lookup_alloc_self _ _

/-- C7: each `hello_world` call adds exactly one block to the heap —
the returned heap is the old heap plus one fresh block — and that
block's size is the length of "hello world" plus one terminator byte,
so modelled memory usage grows by exactly that amount. -/
theorem hello_world_single_allocation (h : Heap) :
    (hello_world h).2 = (freshAddr h, helloWorldBytes ++ [0]) :: h
    ∧ (helloWorldBytes ++ [0]).length = "hello world".length + 1
    ∧ memory_usage (hello_world h).2
        = memory_usage h + ("hello world".length + 1) := by
  refine ⟨rfl, by decide, ?_⟩
  have h1 : helloWorldBytes.length + 1 = "hello world".length + 1 := by decide
  simp [memory_usage, hello_world, allocate_owned_string]
  omega

/-- C8: `release_owned_string` is the exact inverse of
`allocate_owned_string` — for every byte content and heap, releasing
the handle just allocated restores the allocator state that held before
the allocation — and the exported `free_string` is precisely the
boundary's release operation, the sole release path in the model. -/
theorem release_inverse_of_allocate (content : List Nat) (h : Heap) :
    release_owned_string (allocate_owned_string content h).1
      (allocate_owned_string content h).2 = h
    ∧ free_string = release_owned_string :=
  ⟨release_alloc content h, rfl⟩

/-- C9: `free_string` on the null handle 0 is a no-op — the heap is
unchanged — on every heap holding only allocator-issued blocks, whose
addresses are never 0 (the fresh-address generator never emits 0). -/
theorem free_string_null_noop (h : Heap) (hwf : ∀ p ∈ h, p.1 ≠ 0) :
    free_string 0 h = h ∧ freshAddr h ≠ 0 := by
  constructor
  · unfold free_string release_owned_string
    apply List.eraseP_of_forall_not
    intro p hp
    simp [hwf p hp]
  · exact Nat.succ_ne_zero _

/-- C9 (witness): the theorem applied to a concrete heap holding one
block at address 3, the no-null-address hypothesis discharged there. -/
theorem free_string_null_noop_witness :
    (∀ p ∈ ([(3, [104, 0])] : Heap), p.1 ≠ 0)
    ∧ free_string 0 [(3, [104, 0])] = [(3, [104, 0])] :=
  ⟨by decide, (free_string_null_noop [(3, [104, 0])] (by decide)).1⟩

/-- C10: the leak test's assertion `abs(end - start) < 10 ** 4` bounds
the absolute difference, so the test fails whenever resident usage
moves by 10,000 bytes or more in either direction — shrinking included,
not only growing. -/
theorem leak_test_fails_on_shrink (start e : Nat)
    (hs : e + 10 ^ 4 ≤ start ∨ start + 10 ^ 4 ≤ e) :
    test_memory_leak_passes start e = false := by
  unfold test_memory_leak_passes
  rw [if_neg]
  omega

/-- C10 (witness): the theorem applied at start = 20000, end = 0 — a
shrink of 20000 bytes — with the hypothesis discharged there. -/
theorem leak_test_fails_on_shrink_witness :
    ((0 : Nat) + 10 ^ 4 ≤ 20000 ∨ 20000 + 10 ^ 4 ≤ (0 : Nat))
    ∧ test_memory_leak_passes 20000 0 = false :=
  ⟨Or.inl (by decide), leak_test_fails_on_shrink 20000 0 (Or.inl (by decide))⟩

end Libfdu
